import Mathlib

/-!
Verification of the PROFIBUS CP-PHY access library (`cp_phy.py`).

The development shallowly embeds the two classes of the source:

* `CpPhyMessage` — frame encode (`getRawData`), decode (`setRawData`) and
  the checksum (`calculateChecksum`).  Bytes are modelled as `Nat` (Python
  integers are unbounded; all wire bytes are in `0..255`).  The Python
  method `setRawData` mutates `self.fc` / `self.payload` and raises
  exceptions; it is modelled as a state transformer returning the final
  object state together with an optional error, so that the partially
  mutated state at the moment of a raise is observable.
* `CpPhy` — the transaction layer.  The SPI transport and the IRQ GPIO are
  modelled by an environment `PhyEnv` giving the byte stream returned by
  `spi.readbytes` and the result of `GPIO.event_detected` at each poll.
  The unbounded `while 1` spin loop of `__sendMessage(sync=True)` is
  modelled with explicit fuel.
-/

/-- Errors.  The Python code raises `PhyError` with distinct messages; each
raise site gets its own constructor. `invalidBaudRate` is the raise in
`profibusSetPhyConfig`. -/
inductive PhyError : Type where
  | frameTooSmall : PhyError
  | checksumMismatch : PhyError
  | unknownFrameControl : Nat → PhyError
  | payloadLengthMismatch : PhyError
  | invalidBaudRate : PhyError
deriving Repr, DecidableEq

/-- A run-time error of the embedded Python code: either a typed `PhyError`
raise, or an untyped built-in `IndexError` (e.g. `data[0]` on an empty
list). -/
inductive RunError : Type where
  | phy : PhyError → RunError
  | indexError : RunError
deriving Repr, DecidableEq

/-- The mutable state of a `CpPhyMessage` object: frame control `fc` and
`payload`. -/
structure CpPhyMessage : Type where
  fc : Nat
  payload : List Nat
deriving Repr, DecidableEq

namespace CpPhyMessage

/-- `RASPI_PACK_HDR_LEN = 3`. -/
def RASPI_PACK_HDR_LEN : Nat := 3

/-- `RPI_PACK_NOP = 0` (no operation). -/
def RPI_PACK_NOP : Nat := 0
/-- `RPI_PACK_RESET = 1`. -/
def RPI_PACK_RESET : Nat := 1
/-- `RPI_PACK_SETCFG = 2`. -/
def RPI_PACK_SETCFG : Nat := 2
/-- `RPI_PACK_PB_SDR = 3`. -/
def RPI_PACK_PB_SDR : Nat := 3
/-- `RPI_PACK_PB_SDR_REPLY = 4`. -/
def RPI_PACK_PB_SDR_REPLY : Nat := 4
/-- `RPI_PACK_PB_SDN = 5`. -/
def RPI_PACK_PB_SDN : Nat := 5
/-- `RPI_PACK_ACK = 6`. -/
def RPI_PACK_ACK : Nat := 6
/-- `RPI_PACK_NACK = 7`. -/
def RPI_PACK_NACK : Nat := 7
/-- `__RPI_PACK_FC_MAX = RPI_PACK_NACK`. -/
def RPI_PACK_FC_MAX : Nat := RPI_PACK_NACK

/-- `calculateChecksum(packetData)`:
`((sum(packetData) - (packetData[2] & 0xFF)) ^ 0xFF) & 0xFF`.
It is only ever called on buffers of length ≥ 3 (so `getD 2 0` is the real
`packetData[2]`), and since `packetData[2]` occurs in the sum the Python
subtraction never goes negative, so `Nat` subtraction is exact. -/
def calculateChecksum (packetData : List Nat) : Nat :=
  ((packetData.sum - (packetData.getD 2 0 &&& 0xFF)) ^^^ 0xFF) &&& 0xFF

/-- `getRawData`: `data = [fc, len(payload), 0] + payload`, then
`data[2] = calculateChecksum(data)`. -/
def getRawData (m : CpPhyMessage) : List Nat :=
  m.fc :: m.payload.length ::
    calculateChecksum (m.fc :: m.payload.length :: 0 :: m.payload) :: m.payload

/-- `setRawData(data)` as a state transformer on the object.  Mirrors the
Python statement order exactly:
`self.fc = data[0]` (an empty `data` raises `IndexError` before the
assignment); early successful return on `NOP`; size check; checksum check;
`self.payload = data[3:]`; frame-control range check (the `fc < 0` half of
the Python test is vacuous for byte values, which are `Nat` here); declared
length check. -/
def setRawData (m : CpPhyMessage) (data : List Nat) :
    CpPhyMessage × Option RunError :=
  match data with
  | [] => (m, some RunError.indexError)
  | d0 :: rest =>
    let m1 : CpPhyMessage := { m with fc := d0 }
    if m1.fc = RPI_PACK_NOP then (m1, none)
    else
      match rest with
      | [] => (m1, some (RunError.phy PhyError.frameTooSmall))
      | [_] => (m1, some (RunError.phy PhyError.frameTooSmall))
      | d1 :: d2 :: _ =>
        if calculateChecksum data ≠ d2 then
          (m1, some (RunError.phy PhyError.checksumMismatch))
        else
          let m2 : CpPhyMessage := { m1 with payload := data.drop 3 }
          if RPI_PACK_FC_MAX < m2.fc then
            (m2, some (RunError.phy (PhyError.unknownFrameControl m2.fc)))
          else if m2.payload.length ≠ d1 then
            (m2, some (RunError.phy PhyError.payloadLengthMismatch))
          else (m2, none)

end CpPhyMessage

/-- Single-bit corruption of a byte buffer: flip bit `k` of byte `i`
(buffer unchanged when `i` is out of range). -/
def flipBit (i k : Nat) (b : List Nat) : List Nat :=
  b.set i (b.getD i 0 ^^^ 2 ^ k)

/-- Environment of a `CpPhy` object: the outside world it reads from.
`irq i` is what `GPIO.event_detected(GPIO_IRQ)` returns on the `i`-th call
to `pollReply`; `spi p` is the `p`-th byte the SPI transport delivers via
`spi.readbytes` (reads are consecutive, tracked by an explicit stream
position). -/
structure PhyEnv : Type where
  irq : Nat → Bool
  spi : Nat → Nat

namespace CpPhy

/-- The `baud2id` dictionary: supported baud rate ↦ `PB_PHY_BAUD_*` id. -/
def baud2id : Nat → Option Nat
  | 9600 => some 0
  | 19200 => some 1
  | 45450 => some 2
  | 93750 => some 3
  | 187500 => some 4
  | 500000 => some 5
  | 1500000 => some 6
  | 3000000 => some 7
  | 6000000 => some 8
  | 12000000 => some 9
  | _ => none

/-- `spi.readbytes(n)` starting at stream position `pos`. -/
def readbytes (env : PhyEnv) (pos n : Nat) : List Nat :=
  (List.range n).map (fun i => env.spi (pos + i))

/-- `pollReply()` at poll index `pollIdx`, SPI stream position `spiPos`.
Returns `(result, newSpiPos)`; `result = none` is Python's `return None`
(no IRQ event), and `result = some (state, err?)` is the decode of the
assembled reply on a fresh `CpPhyMessage(0)` — `err? = some e` means
`setRawData` raised and the exception propagates out of `pollReply`. -/
def pollReply (env : PhyEnv) (pollIdx spiPos : Nat) :
    Option (CpPhyMessage × Option RunError) × Nat :=
  if ¬ env.irq pollIdx then (none, spiPos)
  else
    let reply := readbytes env spiPos CpPhyMessage.RASPI_PACK_HDR_LEN
    let payloadLen := reply.getD 1 0 &&& 0xFF
    let reply :=
      if payloadLen ≠ 0 then reply ++ readbytes env (spiPos + 3) payloadLen
      else reply
    (some ((CpPhyMessage.mk 0 []).setRawData reply), spiPos + 3 + payloadLen)

/-- The `while 1: reply = self.pollReply(); if reply: return reply` loop of
`__sendMessage(sync=True)`, with fuel bounding the number of polls (the
Python loop is unbounded).  Returns the loop's outcome and the number of
`pollReply` calls made; outcome `none` means the fuel ran out before any
poll yielded a reply. -/
def spinPoll (env : PhyEnv) :
    Nat → Nat → Nat → Option (CpPhyMessage × Option RunError) × Nat
  | 0, _, _ => (none, 0)
  | fuel + 1, pollIdx, spiPos =>
    match pollReply env pollIdx spiPos with
    | (some r, _) => (some r, 1)
    | (none, pos) =>
      let rest := spinPoll env fuel (pollIdx + 1) pos
      (rest.1, rest.2 + 1)

/-- `__sendMessage(message, sync)`: write `message.getRawData()` to the
SPI transport, then if `sync` spin-poll for the reply.  The first component
is the byte list written, the second the spin loop's outcome and poll
count (`(none, 0)` for the asynchronous `return`). -/
def sendMessage (env : PhyEnv) (fuel : Nat) (message : CpPhyMessage)
    (sync : Bool) :
    List Nat × (Option (CpPhyMessage × Option RunError) × Nat) :=
  (message.getRawData, if sync then spinPoll env fuel 0 0 else (none, 0))

/-- `profibusSetPhyConfig(baudrate)`: look `baudrate` up in `baud2id`
(a `KeyError` becomes the `PhyError` raise, before any transport write),
then send a `RPI_PACK_SETCFG` frame with the one-byte payload `[baudID]`
synchronously.  `Except.error` is raised before anything is written; on
`Except.ok` the result carries the written bytes and the poll outcome. -/
def profibusSetPhyConfig (env : PhyEnv) (fuel baudrate : Nat) :
    Except PhyError
      (List Nat × (Option (CpPhyMessage × Option RunError) × Nat)) :=
  match baud2id baudrate with
  | none => Except.error PhyError.invalidBaudRate
  | some baudID =>
      Except.ok
        (sendMessage env fuel
          (CpPhyMessage.mk CpPhyMessage.RPI_PACK_SETCFG [baudID]) true)

end CpPhy

example :
    (CpPhyMessage.mk 1 [10, 20]).getRawData = [1, 2, 222, 10, 20] := by decide

example :
    (CpPhyMessage.mk 0 []).setRawData [1, 2, 222, 10, 20] =
      (CpPhyMessage.mk 1 [10, 20], none) := by decide

example :
    (CpPhyMessage.mk 0 []).setRawData [0] = (CpPhyMessage.mk 0 [], none) := by
  decide

example :
    ((CpPhyMessage.mk 0 []).setRawData [9, 5, 241]).2 =
      some (RunError.phy (PhyError.unknownFrameControl 9)) := by decide

example :
    CpPhy.spinPoll
      (PhyEnv.mk (fun i => i == 1) (fun p => [1, 0, 254].getD p 0)) 3 0 0 =
      (some (CpPhyMessage.mk 1 [], none), 2) := by decide

example :
    CpPhy.profibusSetPhyConfig
      (PhyEnv.mk (fun _ => false) (fun _ => 0)) 0 100 =
      Except.error PhyError.invalidBaudRate := rfl

/-! ### Arithmetic facts about the 8-bit mask and xor -/

theorem and255_eq_mod (x : Nat) : x &&& 255 = x % 256 := by
  have h := Nat.and_pow_two_sub_one_eq_mod x 8
  norm_num at h
  exact h

theorem and255_lt (x : Nat) : x &&& 255 < 256 := by
  rw [and255_eq_mod]
  exact Nat.mod_lt x (by norm_num)

theorem and255_of_lt {x : Nat} (h : x < 256) : x &&& 255 = x := by
  rw [and255_eq_mod]
  exact Nat.mod_eq_of_lt h

/-- The low 8 bits of a value determine its masked one's-complement, and
conversely. -/
theorem mask_inj {x y : Nat}
    (h : (x ^^^ 255) &&& 255 = (y ^^^ 255) &&& 255) : x % 256 = y % 256 := by
  rw [Nat.and_xor_distrib_right, Nat.and_xor_distrib_right] at h
  have h255 : (255 : Nat) &&& 255 = 255 := Nat.and_self 255
  rw [h255, and255_eq_mod, and255_eq_mod] at h
  have h2 := congrArg (fun t => t ^^^ 255) h
  simpa [Nat.xor_assoc] using h2

/-- Flipping one of the low 8 bits of a value changes it modulo 256. -/
theorem flip_mod_ne {x k : Nat} (hk : k < 8) :
    (x ^^^ 2 ^ k) % 256 ≠ x % 256 := by
  intro h
  have h256 : (256 : Nat) = 2 ^ 8 := by norm_num
  rw [h256] at h
  have h3 := congrArg (fun t => Nat.testBit t k) h
  simp only [Nat.testBit_mod_two_pow, Nat.testBit_xor,
    Nat.testBit_two_pow_self, decide_eq_true hk, Bool.true_and] at h3
  simp at h3

/-! ### The checksum of an encoded buffer -/

/-- `calculateChecksum` on an explicit 3-byte-header buffer. -/
theorem checksum_cons (d0 d1 d2 : Nat) (payload : List Nat) :
    CpPhyMessage.calculateChecksum (d0 :: d1 :: d2 :: payload) =
      ((d0 + (d1 + (d2 + payload.sum)) - (d2 &&& 255)) ^^^ 255) &&& 255 := by
  simp [CpPhyMessage.calculateChecksum]

/-- The shape of an encoded buffer with the checksum byte spelled out. -/
theorem getRawData_eq (m : CpPhyMessage) :
    m.getRawData =
      m.fc :: m.payload.length ::
        (((m.fc + (m.payload.length + m.payload.sum)) ^^^ 255) &&& 255) ::
        m.payload := by
  have h := checksum_cons m.fc m.payload.length 0 m.payload
  simp only [CpPhyMessage.getRawData, h, Nat.zero_add, Nat.zero_and,
    Nat.sub_zero]

/-- Recomputing the checksum over a freshly encoded buffer gives back its
checksum byte: the checksum byte cancels out of the sum. -/
theorem checksum_getRawData (m : CpPhyMessage) :
    CpPhyMessage.calculateChecksum m.getRawData = m.getRawData.getD 2 0 := by
  rw [getRawData_eq m, checksum_cons]
  have hlt : ((m.fc + (m.payload.length + m.payload.sum)) ^^^ 255) &&& 255
      < 256 := and255_lt _
  rw [and255_of_lt hlt]
  have hsub :
      m.fc + (m.payload.length +
          ((((m.fc + (m.payload.length + m.payload.sum)) ^^^ 255) &&& 255) +
            m.payload.sum)) -
        (((m.fc + (m.payload.length + m.payload.sum)) ^^^ 255) &&& 255) =
      m.fc + (m.payload.length + m.payload.sum) := by omega
  rw [hsub]
  simp [List.getD]

/-- C2: for every frame-control value (0..7) and every payload of length at
most 255, the encoded buffer `b` satisfies `calculateChecksum b = b[2]` and
has length `3 + len(payload)`. -/
theorem checksum_invariant (fc : Nat) (payload : List Nat) (hfc : fc ≤ 7)
    (hlen : payload.length ≤ 255) :
    CpPhyMessage.calculateChecksum (CpPhyMessage.mk fc payload).getRawData =
        (CpPhyMessage.mk fc payload).getRawData.getD 2 0 ∧
      (CpPhyMessage.mk fc payload).getRawData.length = 3 + payload.length := by
  refine ⟨checksum_getRawData _, ?_⟩
  simp [CpPhyMessage.getRawData]
  omega

/-- Witness for C2 at `fc = 3`, `payload = [1, 2]`. -/
theorem checksum_invariant_witness :
    CpPhyMessage.calculateChecksum
        (CpPhyMessage.mk 3 [1, 2]).getRawData =
        (CpPhyMessage.mk 3 [1, 2]).getRawData.getD 2 0 ∧
      (CpPhyMessage.mk 3 [1, 2]).getRawData.length = 3 + [1, 2].length :=
  checksum_invariant 3 [1, 2] (by decide) (by decide)

/-! ### Round-trip decode of an encoded buffer -/

/-- Decoding an encoded non-NOP frame on any message state reconstructs the
frame exactly (both fields are overwritten). -/
theorem setRawData_getRawData (m0 : CpPhyMessage) (fc : Nat)
    (payload : List Nat) (hfc1 : fc ≠ 0) (hfc7 : fc ≤ 7) :
    m0.setRawData (CpPhyMessage.mk fc payload).getRawData =
      (CpPhyMessage.mk fc payload, none) := by
  have hck := checksum_getRawData (CpPhyMessage.mk fc payload)
  rw [getRawData_eq] at hck
  simp only [List.getD_cons_succ, List.getD_cons_zero] at hck
  rw [getRawData_eq]
  have h7 : ¬ (7 : Nat) < fc := by omega
  simp [CpPhyMessage.setRawData, CpPhyMessage.RPI_PACK_NOP, hfc1, hck,
    CpPhyMessage.RPI_PACK_FC_MAX, CpPhyMessage.RPI_PACK_NACK, h7]

/-- C1 (amended): for every frame-control value `fc` in 0..7 and payload of
length at most 255, decoding the encoded buffer on a fresh message yields
back exactly `(fc, payload)`, provided the frame is not a NOP with
non-empty payload (NOP decode returns before restoring any payload, keeping
the fresh message's empty payload). -/
theorem roundtrip (fc : Nat) (payload : List Nat) (hfc : fc ≤ 7)
    (hlen : payload.length ≤ 255)
    (hnop : fc ≠ CpPhyMessage.RPI_PACK_NOP ∨ payload = []) :
    (CpPhyMessage.mk 0 []).setRawData
        (CpPhyMessage.mk fc payload).getRawData =
      (CpPhyMessage.mk fc payload, none) := by
  rcases hnop with h | h
  · exact setRawData_getRawData _ fc payload h hfc
  · subst h
    by_cases h0 : fc = 0
    · subst h0; decide
    · exact setRawData_getRawData _ fc [] h0 hfc

/-- Witness for C1 (amended) at `fc = 5`, `payload = [1, 2, 3]`. -/
theorem roundtrip_witness :
    (CpPhyMessage.mk 0 []).setRawData
        (CpPhyMessage.mk 5 [1, 2, 3]).getRawData =
      (CpPhyMessage.mk 5 [1, 2, 3], none) :=
  roundtrip 5 [1, 2, 3] (by decide) (by decide) (Or.inl (by decide))

/-- C1 counterexample: a NOP frame with non-empty payload does not
round-trip — decoding its encoding on a fresh message drops the payload. -/
theorem roundtrip_nop_cex :
    (CpPhyMessage.mk 0 []).setRawData
        (CpPhyMessage.mk 0 [1]).getRawData ≠
      (CpPhyMessage.mk 0 [1], none) := by decide

/-- C4: on a buffer of at least 3 bytes with a valid checksum byte, a
frame-control byte outside 0..7 and a length byte that disagrees with the
actual payload length, decode fails with `unknownFrameControl`, not
`payloadLengthMismatch`. -/
theorem decode_error_precedence (m0 : CpPhyMessage) (d0 d1 d2 : Nat)
    (payload : List Nat) (hfc : 8 ≤ d0)
    (hck : CpPhyMessage.calculateChecksum (d0 :: d1 :: d2 :: payload) = d2)
    (hlen : payload.length ≠ d1) :
    (m0.setRawData (d0 :: d1 :: d2 :: payload)).2 =
      some (RunError.phy (PhyError.unknownFrameControl d0)) := by
  have h0 : d0 ≠ 0 := by omega
  have h7 : (7 : Nat) < d0 := by omega
  simp [CpPhyMessage.setRawData, CpPhyMessage.RPI_PACK_NOP, h0, hck,
    CpPhyMessage.RPI_PACK_FC_MAX, CpPhyMessage.RPI_PACK_NACK, h7]

/-- Witness for C4: buffer `[9, 5, 241]` (valid checksum, frame control 9,
declared length 5, no payload bytes). -/
theorem decode_error_precedence_witness :
    ((CpPhyMessage.mk 0 []).setRawData [9, 5, 241]).2 =
      some (RunError.phy (PhyError.unknownFrameControl 9)) :=
  decode_error_precedence (CpPhyMessage.mk 0 []) 9 5 241 []
    (by decide) (by decide) (by decide)

/-- C5: the buffer `[0x00]` decodes successfully on a fresh message into a
NOP frame with empty payload, and more generally any buffer whose byte 0 is
NOP is accepted with all further validation skipped (only `fc` is
updated). -/
theorem nop_decode (m : CpPhyMessage) (rest : List Nat) :
    (CpPhyMessage.mk 0 []).setRawData [0] = (CpPhyMessage.mk 0 [], none) ∧
      m.setRawData (CpPhyMessage.RPI_PACK_NOP :: rest) =
        ({ m with fc := CpPhyMessage.RPI_PACK_NOP }, none) := by
  refine ⟨by decide, ?_⟩
  simp [CpPhyMessage.setRawData, CpPhyMessage.RPI_PACK_NOP]

/-- C8: decoding the empty buffer hits `data[0]` before any size check and
raises the untyped `IndexError`, never the typed `frameTooSmall`; the
"fewer than 3 bytes" error arises exactly on buffers of length 1 or 2 whose
byte 0 is not NOP. -/
theorem empty_decode_untyped (m : CpPhyMessage) (data : List Nat) :
    m.setRawData [] = (m, some RunError.indexError) ∧
      ((m.setRawData data).2 = some (RunError.phy PhyError.frameTooSmall) ↔
        (data.length = 1 ∨ data.length = 2) ∧
          data.getD 0 0 ≠ CpPhyMessage.RPI_PACK_NOP) := by
  refine ⟨by simp [CpPhyMessage.setRawData], ?_⟩
  rcases data with _ | ⟨d0, _ | ⟨d1, _ | ⟨d2, tail⟩⟩⟩
  · simp [CpPhyMessage.setRawData]
  · by_cases h0 : d0 = CpPhyMessage.RPI_PACK_NOP <;>
      simp [CpPhyMessage.setRawData, h0]
  · by_cases h0 : d0 = CpPhyMessage.RPI_PACK_NOP <;>
      simp [CpPhyMessage.setRawData, h0]
  · have hlen : (d0 :: d1 :: d2 :: tail).length = tail.length + 3 := by simp
    simp only [CpPhyMessage.setRawData, hlen]
    split_ifs <;> simp

/-- C9: decode is not atomic on failure — whenever `setRawData` raises a
typed `PhyError`, the message's `fc` has already been overwritten with
byte 0 of the buffer, and on `unknownFrameControl` and
`payloadLengthMismatch` failures the `payload` has also already been
overwritten with the sliced bytes `data[3:]`. -/
theorem decode_not_atomic (m : CpPhyMessage) (data : List Nat) (e : PhyError)
    (he : (m.setRawData data).2 = some (RunError.phy e)) :
    (m.setRawData data).1.fc = data.getD 0 0 ∧
      ((e = PhyError.payloadLengthMismatch ∨
          ∃ v, e = PhyError.unknownFrameControl v) →
        (m.setRawData data).1.payload = data.drop 3) := by
  rcases data with _ | ⟨d0, _ | ⟨d1, _ | ⟨d2, tail⟩⟩⟩
  · simp [CpPhyMessage.setRawData] at he
  · by_cases h0 : d0 = CpPhyMessage.RPI_PACK_NOP
    · simp [CpPhyMessage.setRawData, h0] at he
    · simp [CpPhyMessage.setRawData, h0] at he ⊢
      rcases he with rfl
      simp
  · by_cases h0 : d0 = CpPhyMessage.RPI_PACK_NOP
    · simp [CpPhyMessage.setRawData, h0] at he
    · simp [CpPhyMessage.setRawData, h0] at he ⊢
      rcases he with rfl
      simp
  · simp only [CpPhyMessage.setRawData] at he ⊢
    split_ifs at he ⊢ <;> simp_all <;> rintro (rfl | ⟨v, rfl⟩) <;> simp_all

/-- Witness for C9: decoding `[9, 5, 241]` into a message that held
`(fc = 6, payload = [9])` fails with `unknownFrameControl 9`, and the
state has already been overwritten to `fc = 9`, `payload = []`. -/
theorem decode_not_atomic_witness :
    ((CpPhyMessage.mk 6 [9]).setRawData [9, 5, 241]).1.fc =
        [9, 5, 241].getD 0 0 ∧
      ((PhyError.unknownFrameControl 9 = PhyError.payloadLengthMismatch ∨
          ∃ v, PhyError.unknownFrameControl 9 =
            PhyError.unknownFrameControl v) →
        ((CpPhyMessage.mk 6 [9]).setRawData [9, 5, 241]).1.payload =
          [9, 5, 241].drop 3) :=
  decode_not_atomic (CpPhyMessage.mk 6 [9]) [9, 5, 241]
    (PhyError.unknownFrameControl 9) (by decide)

/-! ### Single-bit corruption -/

/-- A non-NOP buffer of length ≥ 3 with a wrong checksum byte is rejected
with `checksumMismatch`. -/
theorem setRawData_checksum_fail (m : CpPhyMessage) (d0 d1 d2 : Nat)
    (tail : List Nat) (h0 : d0 ≠ 0)
    (hck : CpPhyMessage.calculateChecksum (d0 :: d1 :: d2 :: tail) ≠ d2) :
    (m.setRawData (d0 :: d1 :: d2 :: tail)).2 =
      some (RunError.phy PhyError.checksumMismatch) := by
  simp [CpPhyMessage.setRawData, CpPhyMessage.RPI_PACK_NOP, h0, hck]

/-- The checksum of a header buffer does not depend on the checksum byte
(for byte values below 256, the byte cancels out of the sum). -/
theorem checksum_cons_cancel (d0 d1 x : Nat) (tail : List Nat)
    (hx : x < 256) :
    CpPhyMessage.calculateChecksum (d0 :: d1 :: x :: tail) =
      ((d0 + (d1 + tail.sum)) ^^^ 255) &&& 255 := by
  rw [checksum_cons, and255_of_lt hx]
  have h : d0 + (d1 + (x + tail.sum)) - x = d0 + (d1 + tail.sum) := by omega
  rw [h]

/-- C3 (amended): flipping any single bit of any of the first 3 bytes of an
encoded non-NOP buffer — except a flip that turns byte 0 into the NOP
value, which makes decode accept the buffer as a NOP frame — makes decode
fail with `checksumMismatch`, `unknownFrameControl` or
`payloadLengthMismatch` (in fact always `checksumMismatch`: no such flip
can produce another valid checksum). -/
theorem corruption_detected (fc i k : Nat) (payload : List Nat)
    (hfc1 : 1 ≤ fc) (hfc7 : fc ≤ 7) (hlen : payload.length ≤ 255)
    (hi : i < 3) (hk : k < 8)
    (hnop : (flipBit i k (CpPhyMessage.mk fc payload).getRawData).getD 0 0 ≠
      CpPhyMessage.RPI_PACK_NOP) :
    ((CpPhyMessage.mk 0 []).setRawData
          (flipBit i k (CpPhyMessage.mk fc payload).getRawData)).2 =
        some (RunError.phy PhyError.checksumMismatch) ∨
      (∃ v, ((CpPhyMessage.mk 0 []).setRawData
          (flipBit i k (CpPhyMessage.mk fc payload).getRawData)).2 =
        some (RunError.phy (PhyError.unknownFrameControl v))) ∨
      ((CpPhyMessage.mk 0 []).setRawData
          (flipBit i k (CpPhyMessage.mk fc payload).getRawData)).2 =
        some (RunError.phy PhyError.payloadLengthMismatch) := by
  have hpk : (2 : Nat) ^ k < 256 := by
    calc (2 : Nat) ^ k ≤ 2 ^ 7 := Nat.pow_le_pow_right (by norm_num) (by omega)
    _ < 256 := by norm_num
  obtain ⟨ck, hckdef⟩ :
      ∃ c, c = ((fc + (payload.length + payload.sum)) ^^^ 255) &&& 255 :=
    ⟨_, rfl⟩
  have hcklt : ck < 256 := hckdef ▸ and255_lt _
  rw [getRawData_eq, ← hckdef] at hnop ⊢
  rcases i with _ | _ | _ | j
  · -- flip in byte 0 (the frame-control byte)
    have hflip : flipBit 0 k (fc :: payload.length :: ck :: payload) =
        (fc ^^^ 2 ^ k) :: payload.length :: ck :: payload := by
      simp [flipBit]
    rw [hflip] at hnop ⊢
    have h0 : fc ^^^ 2 ^ k ≠ 0 := by
      simpa [CpPhyMessage.RPI_PACK_NOP] using hnop
    refine Or.inl (setRawData_checksum_fail _ _ _ _ _ h0 ?_)
    rw [checksum_cons_cancel _ _ _ _ hcklt]
    intro hc
    rw [hckdef] at hc
    have hm := mask_inj hc
    have hmod : (fc ^^^ 2 ^ k) % 256 = fc % 256 := by omega
    exact flip_mod_ne hk hmod
  · -- flip in byte 1 (the length byte)
    have hflip : flipBit 1 k (fc :: payload.length :: ck :: payload) =
        fc :: (payload.length ^^^ 2 ^ k) :: ck :: payload := by
      simp [flipBit]
    rw [hflip]
    have h0 : fc ≠ 0 := by omega
    refine Or.inl (setRawData_checksum_fail _ _ _ _ _ h0 ?_)
    rw [checksum_cons_cancel _ _ _ _ hcklt]
    intro hc
    rw [hckdef] at hc
    have hm := mask_inj hc
    have hmod : (payload.length ^^^ 2 ^ k) % 256 = payload.length % 256 := by
      omega
    exact flip_mod_ne hk hmod
  · -- flip in byte 2 (the checksum byte)
    have hflip : flipBit 2 k (fc :: payload.length :: ck :: payload) =
        fc :: payload.length :: (ck ^^^ 2 ^ k) :: payload := by
      simp [flipBit]
    rw [hflip]
    have h0 : fc ≠ 0 := by omega
    refine Or.inl (setRawData_checksum_fail _ _ _ _ _ h0 ?_)
    have h8 : (256 : Nat) = 2 ^ 8 := by norm_num
    have hxlt : ck ^^^ 2 ^ k < 256 := by
      rw [h8] at hcklt hpk ⊢
      exact Nat.xor_lt_two_pow hcklt hpk
    rw [checksum_cons_cancel _ _ _ _ hxlt, ← hckdef]
    intro hc
    exact flip_mod_ne hk (congrArg (fun t => t % 256) hc.symm)
  · omega

/-- Witness for C3 (amended): `fc = 3`, empty payload, flip bit 2 of
byte 0. -/
theorem corruption_detected_witness :
    ((CpPhyMessage.mk 0 []).setRawData
          (flipBit 0 2 (CpPhyMessage.mk 3 []).getRawData)).2 =
        some (RunError.phy PhyError.checksumMismatch) ∨
      (∃ v, ((CpPhyMessage.mk 0 []).setRawData
          (flipBit 0 2 (CpPhyMessage.mk 3 []).getRawData)).2 =
        some (RunError.phy (PhyError.unknownFrameControl v))) ∨
      ((CpPhyMessage.mk 0 []).setRawData
          (flipBit 0 2 (CpPhyMessage.mk 3 []).getRawData)).2 =
        some (RunError.phy PhyError.payloadLengthMismatch) :=
  corruption_detected 3 0 2 [] (by decide) (by decide) (by decide)
    (by decide) (by decide) (by decide)

/-- C3 counterexample: for the encoded RESET frame `[1, 0, 254]`, flipping
bit 0 of byte 0 yields `[0, 0, 254]`, whose checksum byte is *not* valid,
yet decode accepts it (as a NOP frame) instead of failing. -/
theorem corruption_cex :
    ((CpPhyMessage.mk 0 []).setRawData
        (flipBit 0 0 (CpPhyMessage.mk 1 []).getRawData)).2 = none ∧
      CpPhyMessage.calculateChecksum
          (flipBit 0 0 (CpPhyMessage.mk 1 []).getRawData) ≠
        (flipBit 0 0 (CpPhyMessage.mk 1 []).getRawData).getD 2 0 := by
  decide

/-! ### The transaction layer -/

/-- C6: `profibusSetPhyConfig(93750)` builds and synchronously sends a
SET_CONFIG frame whose payload is exactly `[3]` (raw bytes written:
`[2, 1, 249, 3]`), while every baud rate outside the ten-entry `baud2id`
table (such as 100) fails with `invalidBaudRate` before anything is
written to the transport (the error result carries no write). -/
theorem setPhyConfig_baud (env : PhyEnv) (fuel : Nat) :
    CpPhy.profibusSetPhyConfig env fuel 93750 =
        Except.ok
          (CpPhy.sendMessage env fuel
            (CpPhyMessage.mk CpPhyMessage.RPI_PACK_SETCFG [3]) true) ∧
      (CpPhyMessage.mk CpPhyMessage.RPI_PACK_SETCFG [3]).getRawData =
        [2, 1, 249, 3] ∧
      ∀ baudrate, CpPhy.baud2id baudrate = none →
        CpPhy.profibusSetPhyConfig env fuel baudrate =
          Except.error PhyError.invalidBaudRate := by
  refine ⟨rfl, by decide, ?_⟩
  intro baudrate hb
  simp [CpPhy.profibusSetPhyConfig, hb]

/-- Witness for C6's unsupported-rate clause at `baudrate = 100`. -/
theorem setPhyConfig_baud_witness :
    CpPhy.profibusSetPhyConfig
        (PhyEnv.mk (fun _ => false) (fun _ => 0)) 0 100 =
      Except.error PhyError.invalidBaudRate :=
  (setPhyConfig_baud (PhyEnv.mk (fun _ => false) (fun _ => 0)) 0).2.2 100 rfl

/-- The spin-poll loop, when the ready signal first fires on the `N`-th
poll (counting from `start`), performs exactly `N` polls and finishes with
the result of that `N`-th `pollReply`. -/
theorem spinPoll_first_reply (env : PhyEnv) :
    ∀ N start fuel : Nat, 1 ≤ N → N ≤ fuel →
      (∀ i, i + 1 < N → env.irq (start + i) = false) →
      env.irq (start + (N - 1)) = true →
      CpPhy.spinPoll env fuel start 0 =
        ((CpPhy.pollReply env (start + (N - 1)) 0).1, N) := by
  intro N
  induction N with
  | zero => intro start fuel h1 _ _ _; omega
  | succ n ih =>
    intro start fuel h1 hf hq hl
    obtain ⟨f, rfl⟩ : ∃ f, fuel = f + 1 := ⟨fuel - 1, by omega⟩
    by_cases hn : n = 0
    · subst hn
      simp only [Nat.add_sub_cancel, Nat.add_zero] at hl ⊢
      rcases hrp : CpPhy.pollReply env start 0 with ⟨ro, rp⟩
      rcases ro with _ | r
      · simp [CpPhy.pollReply, hl] at hrp
      · simp [CpPhy.spinPoll, hrp]
    · have hq0 : env.irq start = false := by
        have := hq 0 (by omega)
        simpa using this
      have hp0 : CpPhy.pollReply env start 0 = (none, 0) := by
        simp [CpPhy.pollReply, hq0]
      have hidx : start + (n + 1 - 1) = start + 1 + (n - 1) := by omega
      rw [hidx] at hl
      have hq' : ∀ i, i + 1 < n → env.irq (start + 1 + i) = false := by
        intro i hi
        have := hq (i + 1) (by omega)
        have harr : start + (i + 1) = start + 1 + i := by omega
        rwa [harr] at this
      have hrec := ih (start + 1) f (by omega) (by omega) hq' hl
      simp only [CpPhy.spinPoll, hp0, hrec]
      rw [hidx]

/-- C7: when `sendMessage` is called with `sync=True` and the ready signal
first reports an event on the `N`-th poll, the call makes exactly `N`
(hence at least `N`) `pollReply` calls and returns the result of that
successful poll; it never hands the caller the no-reply `None`. -/
theorem sendMessage_sync_seq (env : PhyEnv) (fuel N : Nat)
    (message : CpPhyMessage) (h1 : 1 ≤ N) (hf : N ≤ fuel)
    (hq : ∀ i, i + 1 < N → env.irq i = false)
    (hl : env.irq (N - 1) = true) :
    CpPhy.sendMessage env fuel message true =
        (message.getRawData, ((CpPhy.pollReply env (N - 1) 0).1, N)) ∧
      (CpPhy.pollReply env (N - 1) 0).1 ≠ none := by
  constructor
  · have h := spinPoll_first_reply env N 0 fuel h1 hf
      (by intro i hi; simpa using hq i hi) (by simpa using hl)
    simp only [Nat.zero_add] at h
    simp [CpPhy.sendMessage, h]
  · intro hnone
    simp [CpPhy.pollReply, hl] at hnone

/-- Witness for C7 with `N = 2`: the IRQ line latches only on the second
poll, the SPI stream holds the encoded RESET reply `[1, 0, 254]`. -/
theorem sendMessage_sync_seq_witness :
    CpPhy.sendMessage
        (PhyEnv.mk (fun i => i == 1) (fun p => [1, 0, 254].getD p 0)) 3
        (CpPhyMessage.mk 1 []) true =
        ((CpPhyMessage.mk 1 []).getRawData,
          ((CpPhy.pollReply
              (PhyEnv.mk (fun i => i == 1) (fun p => [1, 0, 254].getD p 0))
              (2 - 1) 0).1, 2)) ∧
      (CpPhy.pollReply
          (PhyEnv.mk (fun i => i == 1) (fun p => [1, 0, 254].getD p 0))
          (2 - 1) 0).1 ≠ none :=
  sendMessage_sync_seq _ 3 2 (CpPhyMessage.mk 1 []) (by decide) (by decide)
    (fun i hi => by
      have h0 : i = 0 := by omega
      subst h0
      rfl)
    rfl

/-- Decoding a buffer with a 3-byte header whose declared length byte
matches the actual payload byte count can fail neither with
`payloadLengthMismatch` nor with `frameTooSmall`. -/
theorem setRawData_no_plm (m : CpPhyMessage) (d0 d1 d2 : Nat)
    (tail : List Nat) (hlen : tail.length = d1) :
    (m.setRawData (d0 :: d1 :: d2 :: tail)).2 ≠
        some (RunError.phy PhyError.payloadLengthMismatch) ∧
      (m.setRawData (d0 :: d1 :: d2 :: tail)).2 ≠
        some (RunError.phy PhyError.frameTooSmall) := by
  simp only [CpPhyMessage.setRawData]
  split_ifs <;> simp_all

/-- C10: `payloadLengthMismatch` (and `frameTooSmall`) is unreachable from
`pollReply`: the reply buffer is assembled by reading exactly the number of
payload bytes declared in header byte 1 after a fixed 3-byte header read,
so whenever `pollReply` yields a decode outcome, that outcome is never a
length-mismatch or too-small error.  (The transport delivers bytes, i.e.
values below 256.) -/
theorem pollReply_no_length_mismatch (env : PhyEnv) (pollIdx spiPos : Nat)
    (hbyte : env.spi (spiPos + 1) < 256) (r : CpPhyMessage × Option RunError)
    (pos : Nat) (hp : CpPhy.pollReply env pollIdx spiPos = (some r, pos)) :
    r.2 ≠ some (RunError.phy PhyError.payloadLengthMismatch) ∧
      r.2 ≠ some (RunError.phy PhyError.frameTooSmall) := by
  rcases hirq : env.irq pollIdx with _ | _
  · simp [CpPhy.pollReply, hirq] at hp
  · have hrange : List.range 3 = [0, 1, 2] := rfl
    have hr3 : CpPhy.readbytes env spiPos 3 =
        [env.spi spiPos, env.spi (spiPos + 1), env.spi (spiPos + 2)] := by
      simp [CpPhy.readbytes, hrange]
    have hmask : env.spi (spiPos + 1) &&& 0xFF = env.spi (spiPos + 1) :=
      and255_of_lt hbyte
    simp only [CpPhy.pollReply, hirq, Bool.not_true,
      CpPhyMessage.RASPI_PACK_HDR_LEN, hr3, List.getD_cons_succ,
      List.getD_cons_zero, hmask, ite_not, if_false] at hp
    by_cases h0 : env.spi (spiPos + 1) = 0
    · rw [if_pos h0] at hp
      have hr : r = (CpPhyMessage.mk 0 []).setRawData
          [env.spi spiPos, env.spi (spiPos + 1), env.spi (spiPos + 2)] := by
        have := congrArg Prod.fst hp
        simpa using this.symm
      rw [hr]
      exact setRawData_no_plm _ _ _ _ _ (by simp [h0])
    · rw [if_neg h0] at hp
      have hr : r = (CpPhyMessage.mk 0 []).setRawData
          (env.spi spiPos :: env.spi (spiPos + 1) :: env.spi (spiPos + 2) ::
            CpPhy.readbytes env (spiPos + 3) (env.spi (spiPos + 1))) := by
        have := congrArg Prod.fst hp
        simpa using this.symm
      rw [hr]
      exact setRawData_no_plm _ _ _ _ _ (by simp [CpPhy.readbytes])

/-- Witness for C10: IRQ latched, SPI stream `[8, 0, 247]` (valid checksum,
unknown frame control 8): the decode outcome is an `unknownFrameControl`
error, not a length error. -/
theorem pollReply_no_length_mismatch_witness :
    ((CpPhyMessage.mk 8 [],
        some (RunError.phy (PhyError.unknownFrameControl 8))) :
          CpPhyMessage × Option RunError).2 ≠
        some (RunError.phy PhyError.payloadLengthMismatch) ∧
      ((CpPhyMessage.mk 8 [],
        some (RunError.phy (PhyError.unknownFrameControl 8))) :
          CpPhyMessage × Option RunError).2 ≠
        some (RunError.phy PhyError.frameTooSmall) :=
  pollReply_no_length_mismatch
    (PhyEnv.mk (fun _ => true) (fun p => [8, 0, 247].getD p 0)) 0 0
    (by decide)
    (CpPhyMessage.mk 8 [], some (RunError.phy (PhyError.unknownFrameControl 8)))
    3 (by decide)
